import Mathlib

/-
Verification development for the ideas-platform repository (src/code.py).

The program is a single-file app over a SQLite database with two tables
(`users`, `ideas`) and five helper functions: `add_user`, `get_users`,
`add_idea`, `get_ideas`, `vote_idea`, plus three UI button handlers that
invoke them.  We shallow-embed the database as a record of two row lists
together with the AUTOINCREMENT counters, and each helper as a function on
that state.  SQLite specifics that matter here and are modelled faithfully:

* `INSERT` appends a row; `AUTOINCREMENT` assigns ids 1, 2, 3, ...;
* `UPDATE ideas SET votes = votes + 1 WHERE id = ?` touches every row whose
  id matches and is a silent no-op when none does (SQLite raises no error);
* the `FOREIGN KEY(author_id) REFERENCES users(id)` clause in the schema is
  declared but NOT enforced at runtime: the program never executes
  `PRAGMA foreign_keys = ON`, and SQLite defaults to off, so an insert with
  a dangling author_id succeeds;
* `SELECT ... FROM ideas JOIN users ON ideas.author_id = users.id` is an
  inner join: ideas without a matching user produce no output row;
* `ORDER BY (CASE WHEN users.role IN (...) THEN 1 ELSE 0 END) DESC, votes
  DESC` sorts by the two-part key; we model it with a stable merge sort on
  the corresponding boolean/vote key.
-/

namespace IdeasPlatform

/-- A row of the `users` table: id (AUTOINCREMENT), name, role. -/
structure User where
  id : Nat
  name : String
  role : String
deriving Repr, DecidableEq

/-- A row of the `ideas` table: id (AUTOINCREMENT), title, description,
author_id, date, votes (SQLite INTEGER, default 0). -/
structure Idea where
  id : Nat
  title : String
  description : String
  author_id : Nat
  date : String
  votes : Int
deriving Repr, DecidableEq

/-- One output row of the `get_ideas` query:
`SELECT ideas.id, ideas.title, ideas.description, ideas.date, ideas.votes,
users.name, users.role`. -/
structure IdeaRow where
  id : Nat
  title : String
  description : String
  date : String
  votes : Int
  name : String
  role : String
deriving Repr, DecidableEq

/-- The persistent state: the two tables plus the AUTOINCREMENT counters. -/
structure DB where
  users : List User
  ideas : List Idea
  nextUserId : Nat
  nextIdeaId : Nat
deriving Repr, DecidableEq

/-- The freshly created database: both tables empty, AUTOINCREMENT ids
start at 1. -/
def initDB : DB := ⟨[], [], 1, 1⟩

/-- The error taxonomy of the specification. -/
inductive AppError where
  | validationError
  | notFoundError
deriving Repr, DecidableEq

/-- `add_user(name, role)`: INSERT INTO users (name, role) VALUES (?, ?). -/
def add_user (db : DB) (name role : String) : DB :=
  { db with
    users := db.users ++ [⟨db.nextUserId, name, role⟩]
    nextUserId := db.nextUserId + 1 }

/-- `get_users()`: SELECT * FROM users. -/
def get_users (db : DB) : List User := db.users

/-- `add_idea(title, description, author_id)`: INSERT INTO ideas (title,
description, author_id, date) VALUES (?, ?, ?, ?); votes takes the column
default 0.  The `date_str` argument stands for
`datetime.now().strftime(...)`.  SQLite does not check the declared foreign
key here (no `PRAGMA foreign_keys = ON` is ever executed), so the insert
succeeds for any author_id. -/
def add_idea (db : DB) (title description : String) (author_id : Nat)
    (date_str : String) : DB :=
  { db with
    ideas := db.ideas ++ [⟨db.nextIdeaId, title, description, author_id, date_str, 0⟩]
    nextIdeaId := db.nextIdeaId + 1 }

/-- The per-row effect of `UPDATE ideas SET votes = votes + 1 WHERE id = ?`. -/
def voteFn (idea_id : Nat) (i : Idea) : Idea :=
  if i.id = idea_id then { i with votes := i.votes + 1 } else i

/-- `vote_idea(idea_id)`: UPDATE ideas SET votes = votes + 1 WHERE id = ?.
Every row whose id matches is incremented; when no row matches the UPDATE
affects zero rows and SQLite raises no error. -/
def vote_idea (db : DB) (idea_id : Nat) : DB :=
  { db with ideas := db.ideas.map (voteFn idea_id) }

/-- The CASE test of the ORDER BY clause:
`users.role IN ('sergeant', 'expert', 'activist')`. -/
def privileged (role : String) : Bool :=
  role = "sergeant" || role = "expert" || role = "activist"

/-- The value of `CASE WHEN users.role IN (...) THEN 1 ELSE 0 END`. -/
def tier (role : String) : Nat :=
  if privileged role then 1 else 0

/-- Assemble one joined output row from an idea and its matching user. -/
def mkRow (i : Idea) (u : User) : IdeaRow :=
  ⟨i.id, i.title, i.description, i.date, i.votes, u.name, u.role⟩

/-- The inner join `FROM ideas JOIN users ON ideas.author_id = users.id`:
each idea is paired with every user row whose id equals its author_id;
ideas with no matching user contribute nothing. -/
def joinRows (db : DB) : List IdeaRow :=
  db.ideas.flatMap fun i =>
    (db.users.filter fun u => u.id = i.author_id).map (mkRow i)

/-- The comparison realised by `ORDER BY (CASE ...) DESC, votes DESC`:
row `a` may precede row `b` when a's tier is greater, or the tiers are
equal and a's votes are at least b's. -/
def rowLE (a b : IdeaRow) : Bool :=
  if tier b.role < tier a.role then true
  else if tier a.role = tier b.role then decide (b.votes ≤ a.votes)
  else false

/-- `get_ideas()`: the join followed by the two-key ORDER BY, modelled as a
stable sort of the joined rows. -/
def get_ideas (db : DB) : List IdeaRow :=
  (joinRows db).mergeSort rowLE

/-- Look up the idea row with the given id (the row the WHERE clause of
`vote_idea` addresses). -/
def findIdea (db : DB) (idea_id : Nat) : Option Idea :=
  db.ideas.find? fun i => i.id = idea_id

/-- The role choices the UI offers:
`st.selectbox("Role", ["citizen", "sergeant", "expert", "activist"])`. -/
def roleOptions : List String := ["citizen", "sergeant", "expert", "activist"]

/-- The Register button handler: `if name: add_user(name, role) ... else:
st.error("Please enter a name")`.  An empty name (falsy in Python) is
rejected without touching storage; we render the rejection as
`ValidationError` following the specification's taxonomy. -/
def ui_register (db : DB) (name role : String) : Except AppError DB :=
  if name = "" then .error .validationError
  else .ok (add_user db name role)

/-- The Submit Idea button handler: it calls `add_idea(title, description,
user_dict[selected_user])` unconditionally and then reports success; there
is no emptiness check and no failure path. -/
def ui_submit_idea (db : DB) (title description : String) (author_id : Nat)
    (date_str : String) : Except AppError DB :=
  .ok (add_idea db title description author_id date_str)

/-- The Vote button handler: it calls `vote_idea(row['id'])` and reruns;
there is no failure path. -/
def ui_vote (db : DB) (idea_id : Nat) : Except AppError DB :=
  .ok (vote_idea db idea_id)

/-- The View Ideas branch: it runs the `get_ideas` SELECT and renders the
rows; it issues no write statement, so the database is returned unchanged. -/
def ui_view (db : DB) : List IdeaRow × DB :=
  (get_ideas db, db)

/-- The states the running program can put the database in, starting from a
fresh database and going through the three UI handlers: registration only
ever passes a role offered by the selectbox, and idea submission only ever
passes the id of an existing user (the author selectbox is built from
`get_users()`). -/
inductive Reachable : DB → Prop where
  | init : Reachable initDB
  | register (db : DB) (name role : String) (db2 : DB) :
      Reachable db → role ∈ roleOptions →
      ui_register db name role = .ok db2 → Reachable db2
  | submit (db : DB) (title description : String) (author_id : Nat)
      (date_str : String) (db2 : DB) :
      Reachable db → author_id ∈ (get_users db).map User.id →
      ui_submit_idea db title description author_id date_str = .ok db2 →
      Reachable db2
  | voteStep (db : DB) (idea_id : Nat) (db2 : DB) :
      Reachable db → ui_vote db idea_id = .ok db2 → Reachable db2

/-! ## Order lemmas for the ORDER BY comparison -/

theorem rowLE_eq_true (a b : IdeaRow) :
    rowLE a b = true ↔
      tier b.role < tier a.role ∨
        (tier a.role = tier b.role ∧ b.votes ≤ a.votes) := by
  unfold rowLE
  split_ifs with h1 h2 <;> simp_all

theorem rowLE_trans (a b c : IdeaRow) :
    rowLE a b = true → rowLE b c = true → rowLE a c = true := by
  intro hab hbc
  rw [rowLE_eq_true] at hab hbc ⊢
  rcases hab with h | ⟨h, hv⟩ <;> rcases hbc with h2 | ⟨h2, hv2⟩
  · exact Or.inl (h2.trans h)
  · exact Or.inl (h2 ▸ h)
  · exact Or.inl (h ▸ h2)
  · exact Or.inr ⟨h.trans h2, hv2.trans hv⟩

theorem rowLE_total (a b : IdeaRow) :
    (rowLE a b || rowLE b a) = true := by
  rw [Bool.or_eq_true, rowLE_eq_true, rowLE_eq_true]
  rcases Nat.lt_trichotomy (tier a.role) (tier b.role) with h | h | h
  · exact Or.inr (Or.inl h)
  · rcases le_total a.votes b.votes with hv | hv
    · exact Or.inr (Or.inr ⟨h.symm, hv⟩)
    · exact Or.inl (Or.inr ⟨h, hv⟩)
  · exact Or.inl (Or.inl h)

theorem tier_eq_iff (r : String) : tier r = 1 ↔ privileged r = true := by
  unfold tier
  split_ifs with h <;> simp [h]

theorem tier_le_one (r : String) : tier r ≤ 1 := by
  unfold tier
  split_ifs <;> omega

/-! ## Lemmas about vote_idea and findIdea -/

theorem voteFn_id (idea_id : Nat) (i : Idea) : (voteFn idea_id i).id = i.id := by
  unfold voteFn
  split_ifs <;> rfl

theorem find_map_voteFn (l : List Idea) (idea_id : Nat) :
    (l.map (voteFn idea_id)).find? (fun i => i.id = idea_id)
      = (l.find? (fun i => i.id = idea_id)).map (voteFn idea_id) := by
  induction l with
  | nil => rfl
  | cons a t ih =>
      by_cases h : a.id = idea_id
      · simp [List.find?_cons, voteFn_id, h]
      · simp [List.find?_cons, voteFn_id, h, ih]

theorem findIdea_vote (db : DB) (idea_id : Nat) :
    findIdea (vote_idea db idea_id) idea_id
      = (findIdea db idea_id).map (voteFn idea_id) := by
  unfold findIdea vote_idea
  exact find_map_voteFn db.ideas idea_id

theorem findIdea_id_eq (db : DB) (idea_id : Nat) (i : Idea)
    (h : findIdea db idea_id = some i) : i.id = idea_id := by
  unfold findIdea at h
  simpa using List.find?_some h

/-! ## Invariants of the reachable states -/

theorem reachable_votes_nonneg (db : DB) (h : Reachable db) :
    ∀ j ∈ db.ideas, 0 ≤ j.votes := by
  induction h with
  | init => intro j hj; simp [initDB] at hj
  | register db name role db2 _ _ hok ih =>
      intro j hj
      unfold ui_register at hok
      split_ifs at hok with hname
      case neg =>
        injection hok with h2
        subst h2
        exact ih j hj
  | submit db title description author_id date_str db2 _ _ hok ih =>
      intro j hj
      unfold ui_submit_idea at hok
      injection hok with h2
      subst h2
      simp [add_idea] at hj
      rcases hj with hj | rfl
      · exact ih j hj
      · simp
  | voteStep db idea_id db2 _ hok ih =>
      intro j hj
      unfold ui_vote at hok
      injection hok with h2
      subst h2
      simp [vote_idea] at hj
      rcases hj with ⟨j0, hj0, rfl⟩
      have hnn := ih j0 hj0
      unfold voteFn
      split_ifs
      case pos =>
        simp
        omega
      case neg => exact hnn

theorem reachable_userIds_lt (db : DB) (h : Reachable db) :
    ∀ u ∈ db.users, u.id < db.nextUserId := by
  induction h with
  | init => intro u hu; simp [initDB] at hu
  | register db name role db2 _ _ hok ih =>
      intro u hu
      unfold ui_register at hok
      split_ifs at hok with hname
      case neg =>
        injection hok with h2
        subst h2
        simp [add_user] at hu ⊢
        rcases hu with hu | rfl
        · have := ih u hu
          omega
        · show db.nextUserId < db.nextUserId + 1
          omega
  | submit db title description author_id date_str db2 _ _ hok ih =>
      intro u hu
      unfold ui_submit_idea at hok
      injection hok with h2
      subst h2
      exact ih u hu
  | voteStep db idea_id db2 _ hok ih =>
      intro u hu
      unfold ui_vote at hok
      injection hok with h2
      subst h2
      exact ih u hu

/-- A concrete reachable database: user 1 "Amal" (expert) with idea 1
"Water" at 0 votes. -/
def exampleDB : DB :=
  add_idea (add_user initDB "Amal" "expert") "Water" "desc" 1 "2026-10-12 00:00"

theorem exampleDB_reachable : Reachable exampleDB := by
  refine Reachable.submit (add_user initDB "Amal" "expert") "Water" "desc" 1
      "2026-10-12 00:00" exampleDB ?_ ?_ rfl
  · exact Reachable.register initDB "Amal" "expert" (add_user initDB "Amal" "expert")
      Reachable.init (by simp [roleOptions]) rfl
  · simp [get_users, add_user, initDB]

/-! ## Claim theorems -/

/-- C1: every row of `get_ideas` authored by a privileged role (sergeant,
expert, activist) precedes every row authored by a citizen, regardless of
vote counts, and within each tier vote counts are non-increasing along the
returned order. -/
theorem get_ideas_tier_then_votes (db : DB) :
    (get_ideas db).Pairwise fun a b =>
      (privileged b.role = true → privileged a.role = true) ∧
      (privileged a.role = privileged b.role → b.votes ≤ a.votes) := by
  have h := List.sorted_mergeSort rowLE_trans rowLE_total (joinRows db)
  refine List.Pairwise.imp ?_ h
  intro a b hab
  rw [rowLE_eq_true] at hab
  constructor
  · intro hb
    rcases hab with h1 | ⟨h1, _⟩
    · have := tier_le_one a.role
      have := (tier_eq_iff b.role).mpr hb
      omega
    · rw [← tier_eq_iff] at hb ⊢
      omega
  · intro hp
    rcases hab with h1 | ⟨h1, hv⟩
    · exfalso
      have ha1 := tier_le_one a.role
      have hb1 := tier_le_one b.role
      unfold tier at h1 ha1 hb1
      rw [hp] at h1
      split_ifs at h1 <;> omega
    · exact hv

/-- C8: the View Ideas read is side-effect free (the database after the
call is the database before it) and repeated calls with no intervening
write return the identical ordered row list. -/
theorem view_ideas_idempotent (db : DB) :
    (ui_view db).2 = db ∧ (ui_view ((ui_view db).2)).1 = (ui_view db).1 :=
  ⟨rfl, rfl⟩

/-- C10: a row appears in the `get_ideas` result exactly when it is the
join of a stored idea with a stored user whose id equals the idea's
author_id; an idea whose author_id matches no user row is silently dropped
by the inner join rather than reported as an error. -/
theorem get_ideas_join_members (db : DB) (r : IdeaRow) :
    r ∈ get_ideas db ↔
      ∃ i ∈ db.ideas, ∃ u ∈ db.users, u.id = i.author_id ∧ r = mkRow i u := by
  unfold get_ideas joinRows
  rw [List.mem_mergeSort]
  simp only [List.mem_flatMap, List.mem_map, List.mem_filter]
  constructor
  · rintro ⟨i, hi, u, ⟨hu, huid⟩, hr⟩
    exact ⟨i, hi, u, hu, by simpa using huid, hr.symm⟩
  · rintro ⟨i, hi, u, hu, huid, hr⟩
    exact ⟨i, hi, u, ⟨hu, by simpa using huid⟩, hr.symm⟩

/-- C2: when an idea with the given id is stored, N successive calls to
vote_idea leave that idea with its initial vote count plus N (each call
adds exactly 1), and in every reachable state every stored idea has a
non-negative vote count. -/
theorem vote_count_spec (db : DB) (idea_id : Nat) (i : Idea) (N : Nat)
    (hfind : findIdea db idea_id = some i) (hreach : Reachable db) :
    findIdea ((fun d => vote_idea d idea_id)^[N] db) idea_id
        = some { i with votes := i.votes + (N : Int) } ∧
    ∀ j ∈ db.ideas, 0 ≤ j.votes := by
  constructor
  · induction N with
    | zero =>
        simp only [Function.iterate_zero_apply, Nat.cast_zero, add_zero]
        exact hfind
    | succ n ih =>
        rw [Function.iterate_succ_apply', findIdea_vote, ih]
        have hid : i.id = idea_id := findIdea_id_eq db idea_id i hfind
        simp only [Option.map_some', voteFn]
        rw [if_pos hid]
        simp only [Option.some.injEq, Idea.mk.injEq, true_and]
        push_cast
        ring
  · exact reachable_votes_nonneg db hreach

/-- C2 witness: on the concrete reachable database holding idea 1 with
0 votes, three votes leave it at 3 votes, and all stored vote counts are
non-negative. -/
theorem vote_count_spec_witness :
    findIdea ((fun d => vote_idea d 1)^[3] exampleDB) 1
        = some ⟨1, "Water", "desc", 1, "2026-10-12 00:00", 0 + (3 : Int)⟩ ∧
    ∀ j ∈ exampleDB.ideas, 0 ≤ j.votes :=
  vote_count_spec exampleDB 1 ⟨1, "Water", "desc", 1, "2026-10-12 00:00", 0⟩ 3
    rfl exampleDB_reachable

/-- C3 counterexample: with the fresh empty store, id 1 matches no idea,
yet the vote handler succeeds with the store unchanged instead of failing
with NotFoundError. -/
theorem vote_missing_id_no_error :
    findIdea initDB 1 = none ∧ ui_vote initDB 1 = .ok initDB :=
  ⟨rfl, rfl⟩

/-- C3 (amended): calling vote with an id that matches no stored idea is a
silent no-op: the UPDATE affects zero rows, no error of any kind is raised,
and storage is unchanged. -/
theorem vote_missing_id_noop (db : DB) (idea_id : Nat)
    (h : findIdea db idea_id = none) : ui_vote db idea_id = .ok db := by
  unfold findIdea at h
  have hnone : ∀ i ∈ db.ideas, ¬(i.id = idea_id) := by
    intro i hi hip
    exact absurd h (by simp [List.find?_eq_none] at h ⊢; exact ⟨i, hi, hip⟩)
  have hmap : db.ideas.map (voteFn idea_id) = db.ideas := by
    have hfix : ∀ i ∈ db.ideas, voteFn idea_id i = i := by
      intro i hi
      unfold voteFn
      rw [if_neg (hnone i hi)]
    rw [List.map_congr_left hfix, List.map_id']
  unfold ui_vote vote_idea
  rw [hmap]

/-- C3 witness: the amended no-op fact evaluated at the fresh store and
id 1, which matches no idea. -/
theorem vote_missing_id_noop_witness :
    ui_vote initDB 1 = .ok initDB :=
  vote_missing_id_noop initDB 1 rfl

/-- C4: evaluation at the failing input for the referential-integrity bug.
With no users stored at all, submitting an idea with author_id 999
succeeds and persists the orphan row: the schema declares the foreign key
but the program never enables SQLite foreign-key enforcement, so no
NotFoundError occurs. -/
theorem add_idea_orphan_inserted :
    get_users initDB = [] ∧
    ui_submit_idea initDB "Water" "desc" 999 "2026-10-12 00:00" =
      .ok { users := [], ideas := [⟨1, "Water", "desc", 999, "2026-10-12 00:00", 0⟩],
            nextUserId := 1, nextIdeaId := 2 } :=
  ⟨rfl, rfl⟩

/-- C5 counterexample: with user 1 registered, submitting an idea whose
title and description are both empty succeeds and persists the row; no
ValidationError is raised. -/
theorem submit_empty_title_persists :
    ui_submit_idea (add_user initDB "Amal" "expert") "" "" 1 "2026-10-12 00:00" =
      .ok { users := [⟨1, "Amal", "expert"⟩],
            ideas := [⟨1, "", "", 1, "2026-10-12 00:00", 0⟩],
            nextUserId := 2, nextIdeaId := 2 } :=
  rfl

/-- C5 (amended): the submit-idea operation performs no emptiness check:
every call in which the title or the description (or both) is the empty
string succeeds and persists the new row with vote count 0; no
ValidationError is raised. -/
theorem submit_idea_no_validation (db : DB) (title description : String)
    (author_id : Nat) (date_str : String)
    (hempty : title = "" ∨ description = "") :
    ui_submit_idea db title description author_id date_str =
      .ok { db with
            ideas := db.ideas ++
              [⟨db.nextIdeaId, title, description, author_id, date_str, 0⟩],
            nextIdeaId := db.nextIdeaId + 1 } :=
  rfl

/-- C5 witness: a call whose title alone is empty, against the fresh
store, persists the row and reports success. -/
theorem submit_idea_no_validation_witness :
    ui_submit_idea initDB "" "desc" 7 "2026-10-12 00:00" =
      .ok { initDB with
            ideas := initDB.ideas ++
              [⟨initDB.nextIdeaId, "", "desc", 7, "2026-10-12 00:00", 0⟩],
            nextIdeaId := initDB.nextIdeaId + 1 } :=
  submit_idea_no_validation initDB "" "desc" 7 "2026-10-12 00:00" (Or.inl rfl)

/-- C6: registering with an empty name fails with ValidationError and
stores nothing; with a non-empty name it succeeds, appends exactly one
submitter row carrying a fresh id distinct from every stored user's id. -/
theorem register_user_validates (db : DB) (name role : String)
    (hreach : Reachable db) :
    (name = "" → ui_register db name role = .error .validationError) ∧
    (name ≠ "" →
      ui_register db name role = .ok (add_user db name role) ∧
      (add_user db name role).users = db.users ++ [⟨db.nextUserId, name, role⟩] ∧
      ∀ u ∈ db.users, u.id ≠ db.nextUserId) := by
  constructor
  · intro hname
    unfold ui_register
    rw [if_pos hname]
  · intro hname
    refine ⟨?_, rfl, ?_⟩
    · unfold ui_register
      rw [if_neg hname]
    · intro u hu
      have := reachable_userIds_lt db hreach u hu
      omega

/-- C6 witness: the validation fact evaluated at the fresh store with name
"Amal" and role "citizen". -/
theorem register_user_validates_witness :
    ("Amal" = "" → ui_register initDB "Amal" "citizen" = .error .validationError) ∧
    ("Amal" ≠ "" →
      ui_register initDB "Amal" "citizen" = .ok (add_user initDB "Amal" "citizen") ∧
      (add_user initDB "Amal" "citizen").users
          = initDB.users ++ [⟨initDB.nextUserId, "Amal", "citizen"⟩] ∧
      ∀ u ∈ initDB.users, u.id ≠ initDB.nextUserId) :=
  register_user_validates initDB "Amal" "citizen" Reachable.init

/-- C7: in every state the running program can reach, every stored
submitter's role is one of the four selectbox options citizen, sergeant,
expert, activist: registration is the only way a user row is created and
the UI only ever passes a role drawn from that list. -/
theorem roles_constrained (db : DB) (hreach : Reachable db) :
    ∀ u ∈ db.users, u.role ∈ roleOptions := by
  induction hreach with
  | init => intro u hu; simp [initDB] at hu
  | register db name role db2 _ hrole hok ih =>
      intro u hu
      unfold ui_register at hok
      split_ifs at hok with hname
      case neg =>
        injection hok with h2
        subst h2
        simp [add_user] at hu
        rcases hu with hu | rfl
        · exact ih u hu
        · exact hrole
  | submit db title description author_id date_str db2 _ _ hok ih =>
      intro u hu
      unfold ui_submit_idea at hok
      injection hok with h2
      subst h2
      exact ih u hu
  | voteStep db idea_id db2 _ hok ih =>
      intro u hu
      unfold ui_vote at hok
      injection hok with h2
      subst h2
      exact ih u hu

/-- C7 witness: the role invariant applied to the reachable one-user store
obtained by registering "Amal" as expert. -/
theorem roles_constrained_witness :
    (User.mk 1 "Amal" "expert").role ∈ roleOptions :=
  roles_constrained (add_user initDB "Amal" "expert")
    (Reachable.register initDB "Amal" "expert" (add_user initDB "Amal" "expert")
      Reachable.init (by simp [roleOptions]) rfl)
    ⟨1, "Amal", "expert"⟩ (by simp [add_user, initDB])

/-- C9: vote_idea writes nothing but the votes column of the rows whose id
matches: the users table and both counters are unchanged, the ideas table
keeps its length and row order, each row keeps its id, title, description,
author_id and date, and a row whose id differs from the target is
completely unchanged. -/
theorem vote_idea_frame (db : DB) (idea_id : Nat) :
    (vote_idea db idea_id).users = db.users ∧
    (vote_idea db idea_id).nextUserId = db.nextUserId ∧
    (vote_idea db idea_id).nextIdeaId = db.nextIdeaId ∧
    (vote_idea db idea_id).ideas.length = db.ideas.length ∧
    ∀ k : Nat, ∀ i : Idea, db.ideas[k]? = some i →
      (vote_idea db idea_id).ideas[k]? = some (voteFn idea_id i) ∧
      (voteFn idea_id i).id = i.id ∧
      (voteFn idea_id i).title = i.title ∧
      (voteFn idea_id i).description = i.description ∧
      (voteFn idea_id i).author_id = i.author_id ∧
      (voteFn idea_id i).date = i.date ∧
      (i.id ≠ idea_id → voteFn idea_id i = i) := by
  refine ⟨rfl, rfl, rfl, by simp [vote_idea], ?_⟩
  intro k i hk
  refine ⟨by simp [vote_idea, List.getElem?_map, hk], ?_, ?_, ?_, ?_, ?_, ?_⟩ <;>
    unfold voteFn <;> split_ifs with h <;> simp_all

/-- C9 witness: the frame condition evaluated on the concrete store
holding idea 1 "Water", voting for id 1, at row position 0. -/
theorem vote_idea_frame_witness :
    (vote_idea exampleDB 1).ideas[0]?
        = some (voteFn 1 ⟨1, "Water", "desc", 1, "2026-10-12 00:00", 0⟩) ∧
    (voteFn 1 (⟨1, "Water", "desc", 1, "2026-10-12 00:00", 0⟩ : Idea)).title
        = "Water" :=
  ⟨((vote_idea_frame exampleDB 1).2.2.2.2 0
      ⟨1, "Water", "desc", 1, "2026-10-12 00:00", 0⟩ rfl).1,
   ((vote_idea_frame exampleDB 1).2.2.2.2 0
      ⟨1, "Water", "desc", 1, "2026-10-12 00:00", 0⟩ rfl).2.2.1⟩

end IdeasPlatform
